import Mathlib

/-!
Shallow embedding of the fan-speed controller `RX730.py`.

Numeric values are modelled as rationals (`ℚ`); the temperatures parsed by
the sensor reader are natural numbers (the regex captures `\d+`), so every
value that actually flows through the program is exact in this model.
The management transport (ipmitool) is modelled as an oracle
`exec : IpmiCmd → Bool` telling whether each issued command succeeds
(`subprocess.run` with `check=True` raises exactly when the oracle says
`false`).  Logging is ignored: it is a sink with no effect on control flow.
-/

namespace RX730

/-! ### Constants (`MIN_RPM`, `MAX_RPM`, lines 24-25) -/

def MIN_RPM : ℚ := 0

def MAX_RPM : ℚ := 18000

/-! ### Speed policy: `calculate_fan_speed` (lines 85-101)

`speed_percentage` is the duty-cycle percentage chosen by the `if`/`elif`
chain (including the defensive final `else`); `calculate_fan_speed` scales
it into RPM exactly as line 100 does. -/

def speed_percentage (temp_diff : ℚ) : ℚ :=
  if temp_diff < 10 then 30
  else if 10 ≤ temp_diff ∧ temp_diff ≤ 15 then 40
  else if temp_diff > 15 then 100
  else 40

def calculate_fan_speed (temp_diff : ℚ) : ℚ :=
  MIN_RPM + (MAX_RPM - MIN_RPM) * (speed_percentage temp_diff / 100)

/-! ### Python `int()` truncation -/

/-- Python `int(q)` on a float/rational: truncation toward zero. -/
def pyInt (q : ℚ) : ℤ :=
  if 0 ≤ q then ((q.num.toNat / q.den : ℕ) : ℤ)
  else -(((-q).num.toNat / (-q).den : ℕ) : ℤ)

/-! ### Hex formatting `"{:02x}".format(n)` (line 120)

Hex digits of `n`, most significant first, zero-padded on the left to a
minimum width of two digits, as Python's `{:02x}` does for a nonnegative
integer. -/

def hexLoop : ℕ → ℕ → List ℕ
  | 0, _ => []
  | _ + 1, 0 => []
  | f + 1, n + 1 => ((n + 1) % 16) :: hexLoop f ((n + 1) / 16)

def format02x (n : ℕ) : List ℕ :=
  let ds := (hexLoop n n).reverse
  List.replicate (2 - ds.length) 0 ++ ds

/-! ### Actuator: `set_fan_speed` (lines 104-127) -/

/-- Lines 110-114: recompute the percentage from the RPM value, clamp it
into `[0,100]`, truncate with `int()`. -/
def actuator_percentage (speed : ℚ) : ℤ :=
  pyInt (max 0 (min 100 ((speed - MIN_RPM) / (MAX_RPM - MIN_RPM) * 100)))

/-- The two ipmitool raw commands the actuator can issue: switch to manual
fan control (raw 0x30 0x30 0x01 0x00), and set the duty cycle carrying the
hex-formatted byte (raw 0x30 0x30 0x02 0xff 0x..). -/
inductive IpmiCmd where
  | setManualMode : IpmiCmd
  | setDuty : List ℕ → IpmiCmd
deriving DecidableEq

/-- `set_fan_speed`, returning the list of transport commands actually
issued.  Both `subprocess.run` calls sit in one `try` block whose `except`
catches `CalledProcessError`: the mode-set command is always issued; the
duty-set command is issued only when the mode-set command succeeded (a
mode-set failure jumps straight to the handler).  A failure of the duty-set
command itself happens after it was issued, so it still appears in the
list.  The percentage computation on lines 110-114 cannot raise
(`MAX_RPM - MIN_RPM = 18000 ≠ 0`). -/
def set_fan_speed (speed : ℚ) (exec : IpmiCmd → Bool) : List IpmiCmd :=
  let pct := actuator_percentage speed
  if exec IpmiCmd.setManualMode then
    [IpmiCmd.setManualMode, IpmiCmd.setDuty (format02x pct.toNat)]
  else
    [IpmiCmd.setManualMode]

/-- Whether a command list contains a duty-set command. -/
def issuesDuty (cmds : List IpmiCmd) : Bool :=
  cmds.any fun c =>
    match c with
    | IpmiCmd.setDuty _ => true
    | _ => false

/-! ### Sensor reader: `get_temperature` (lines 52-82)

A line of ipmitool output is a `List Char`.  `searchDegrees` embeds
`re.search(r'\| (\d+) degrees C', line)` returning the captured number of
the leftmost match: the pattern is `'|'`, a space, one or more digits, then
the literal `" degrees C"`.  Because a digit is never a space, the greedy
`\d+` never backtracks, so leftmost maximal-munch matching is exact. -/

def natOfDigits (ds : List Char) : ℕ :=
  ds.foldl (fun a c => 10 * a + (c.toNat - 48)) 0

def startsList : List Char → List Char → Bool
  | [], _ => true
  | _ :: _, [] => false
  | p :: ps, c :: cs => p == c && startsList ps cs

def hasSubstr (pat : List Char) : List Char → Bool
  | [] => pat.isEmpty
  | c :: cs => startsList pat (c :: cs) || hasSubstr pat cs

def digitSpan : List Char → List Char × List Char
  | [] => ([], [])
  | c :: cs =>
    if c.isDigit then
      let p := digitSpan cs
      (c :: p.1, p.2)
    else ([], c :: cs)

def matchDegreesAt : List Char → Option ℕ
  | '|' :: ' ' :: rest =>
    let p := digitSpan rest
    if p.1.isEmpty then none
    else if startsList (String.toList " degrees C") p.2 then some (natOfDigits p.1)
    else none
  | _ => none

def searchDegrees : List Char → Option ℕ
  | [] => none
  | c :: cs =>
    match matchDegreesAt (c :: cs) with
    | some v => some v
    | none => searchDegrees cs

/-- `re.search` followed by `float(match.group(1))`. -/
def parseTemp (line : List Char) : Option ℚ :=
  (searchDegrees line).map fun n => (n : ℚ)

def inletLabel : List Char := String.toList "Inlet Temp"

def exhaustLabel : List Char := String.toList "Exhaust Temp"

/-- The `for line in lines` loop of `get_temperature`: `inlet`/`exhaust`
are the running values of `inlet_temp`/`exhaust_temp`.  A line containing
`"Inlet Temp"` is handled by the first branch (the `elif` means it is never
also treated as an exhaust line); a line whose regex search fails leaves
the running value unchanged. -/
def scanLines : List (List Char) → Option ℚ → Option ℚ → Option ℚ × Option ℚ
  | [], inlet, exhaust => (inlet, exhaust)
  | line :: rest, inlet, exhaust =>
    if hasSubstr inletLabel line then
      scanLines rest
        (match parseTemp line with
         | some v => some v
         | none => inlet) exhaust
    else if hasSubstr exhaustLabel line then
      scanLines rest inlet
        (match parseTemp line with
         | some v => some v
         | none => exhaust)
    else
      scanLines rest inlet exhaust

/-- `get_temperature` applied to the splitlines of the transport output;
`none` is Python's `None` (either label missing, lines 76-77). -/
def get_temperature (lines : List (List Char)) : Option ℚ :=
  match scanLines lines none none with
  | (some inlet, some exhaust) => some (exhaust - inlet)
  | _ => none

/-! ### Control loop: the body of the `while True` loop in `main`
(lines 136-143) -/

/-- One tick of `main`: given this tick's sensor result and the current
`last_temp_diff`, return the new `last_temp_diff` and the transport
commands issued during the tick. -/
def main_tick (temp_diff : Option ℚ) (last_temp_diff : Option ℚ)
    (exec : IpmiCmd → Bool) : Option ℚ × List IpmiCmd :=
  match temp_diff with
  | none => (last_temp_diff, [])
  | some d =>
    let changed : Bool :=
      match last_temp_diff with
      | none => true
      | some l => decide (d ≠ l)
    if changed then (some d, set_fan_speed (calculate_fan_speed d) exec)
    else (last_temp_diff, [])

/-- Several consecutive ticks; the second component records, per tick,
whether any actuation command was issued. -/
def runTicks (reads : List (Option ℚ)) (last_temp_diff : Option ℚ)
    (exec : IpmiCmd → Bool) : Option ℚ × List Bool :=
  match reads with
  | [] => (last_temp_diff, [])
  | r :: rs =>
    let step := main_tick r last_temp_diff exec
    let rest := runTicks rs step.1 exec
    (rest.1, (!step.2.isEmpty) :: rest.2)

/-! ### Auxiliary characterisations and concrete transports -/

/-- The value the scan extracts from one line when the line is handled by
the inlet branch (contains `"Inlet Temp"` and the regex search succeeds). -/
def inletParse (line : List Char) : Option ℚ :=
  if hasSubstr inletLabel line then parseTemp line else none

/-- The value the scan extracts from one line when the line is handled by
the exhaust branch (the `elif`: no `"Inlet Temp"`, contains
`"Exhaust Temp"`, regex search succeeds). -/
def exhaustParse (line : List Char) : Option ℚ :=
  if hasSubstr inletLabel line then none
  else if hasSubstr exhaustLabel line then parseTemp line else none

/-- Last element of a list, defaulting to an initial accumulator: the
"last match encountered wins" policy. -/
def lastUpd (acc : Option ℚ) (l : List ℚ) : Option ℚ :=
  l.foldl (fun _ v => some v) acc

/-- A transport on which every command succeeds. -/
def execAll : IpmiCmd → Bool := fun _ => true

/-- A transport on which the mode-set command fails and everything else
succeeds. -/
def modeFailExec : IpmiCmd → Bool
  | IpmiCmd.setManualMode => false
  | IpmiCmd.setDuty _ => true

/-- A sensor response that mentions only the inlet sensor: the exhaust
label is absent. -/
def missingExhaustLines : List (List Char) :=
  [String.toList "Inlet Temp       | 20 degrees C"]

/-- A sensor response holding two conflicting inlet lines (20 and 25) and
one exhaust line (30). -/
def conflictingLines : List (List Char) :=
  [String.toList "Inlet Temp       | 20 degrees C",
   String.toList "Inlet Temp       | 25 degrees C",
   String.toList "Exhaust Temp     | 30 degrees C"]

/-! ### Helper lemmas -/

theorem pyInt_eq_floor (q : ℚ) (h : 0 ≤ q) : pyInt q = ⌊q⌋ := by
  unfold pyInt
  rw [if_pos h, Rat.floor_def, Int.natCast_div]
  congr 1
  exact Int.toNat_of_nonneg (Rat.num_nonneg.mpr h)

theorem set_fan_speed_ne_nil (speed : ℚ) (exec : IpmiCmd → Bool) :
    set_fan_speed speed exec ≠ [] := by
  unfold set_fan_speed
  split <;> simp

theorem set_fan_speed_isEmpty (speed : ℚ) (exec : IpmiCmd → Bool) :
    (set_fan_speed speed exec).isEmpty = false := by
  unfold set_fan_speed
  split <;> rfl

theorem format02x_len_two : ∀ n < 101, (format02x n).length = 2 := by decide

theorem scanLines_eq (lines : List (List Char)) :
    ∀ inlet exhaust, scanLines lines inlet exhaust =
      (lastUpd inlet (lines.filterMap inletParse),
       lastUpd exhaust (lines.filterMap exhaustParse)) := by
  induction lines with
  | nil => intro i e; rfl
  | cons l ls ih =>
    intro i e
    by_cases h1 : hasSubstr inletLabel l
    · cases hp : parseTemp l with
      | none =>
        simp [scanLines, h1, hp, inletParse, exhaustParse, List.filterMap_cons, ih, lastUpd]
      | some v =>
        simp [scanLines, h1, hp, inletParse, exhaustParse, List.filterMap_cons, ih, lastUpd]
    · by_cases h2 : hasSubstr exhaustLabel l
      · cases hp : parseTemp l with
        | none =>
          simp [scanLines, h1, h2, hp, inletParse, exhaustParse, List.filterMap_cons, ih, lastUpd]
        | some v =>
          simp [scanLines, h1, h2, hp, inletParse, exhaustParse, List.filterMap_cons, ih, lastUpd]
      · simp [scanLines, h1, h2, inletParse, exhaustParse, List.filterMap_cons, ih, lastUpd]

/-! ### Claim theorems -/

/-- C1: the speed policy is total and deterministic; for every gradient g
the duty-cycle percentage chosen inside `calculate_fan_speed` is 30 when
g < 10, 40 when 10 ≤ g ≤ 15 (both boundaries map to 40), and 100 when
g > 15; the returned value is that percentage scaled into RPM; gradients
5, 12, 17 give 30, 40, 100. -/
theorem calculate_fan_speed_policy (g : ℚ) :
    speed_percentage g = (if g < 10 then 30 else if g ≤ 15 then 40 else 100) ∧
    calculate_fan_speed g = 180 * speed_percentage g ∧
    speed_percentage 5 = 30 ∧ speed_percentage 12 = 40 ∧ speed_percentage 17 = 100 := by
  refine ⟨?_, ?_, by decide, by decide, by decide⟩
  · by_cases h1 : g < 10
    · simp [speed_percentage, h1]
    · by_cases h2 : g ≤ 15
      · simp [speed_percentage, h1, h2, le_of_not_lt h1]
      · simp [speed_percentage, h1, h2, lt_of_not_le h2]
  · simp only [calculate_fan_speed]
    rw [show MIN_RPM = (0 : ℚ) from rfl, show MAX_RPM = (18000 : ℚ) from rfl]
    ring

/-- C2: during a tick, an actuation command is issued iff the sensor read
succeeded and the gradient differs from `last_temp_diff` (or the latter is
unset); an unchanged gradient issues no command. -/
theorem actuation_iff_changed (td last : Option ℚ) (exec : IpmiCmd → Bool) :
    (main_tick td last exec).2 ≠ [] ↔
      ∃ d, td = some d ∧ (last = none ∨ ∃ l, last = some l ∧ d ≠ l) := by
  cases td with
  | none => simp [main_tick]
  | some d =>
    cases last with
    | none => simp [main_tick, set_fan_speed_ne_nil]
    | some l =>
      by_cases hdl : d = l
      · subst hdl; simp [main_tick]
      · simp [main_tick, hdl, set_fan_speed_ne_nil]

/-- C3: the new `last_temp_diff` after a tick is the read gradient exactly
when the read succeeded and the gradient differed (otherwise it is
unchanged), and it does not depend on the transport's success or failure:
an actuator failure does not roll the update back. -/
theorem state_update_independent (td last : Option ℚ)
    (exec exec2 : IpmiCmd → Bool) :
    (main_tick td last exec).1 =
      (match td, last with
       | none, l => l
       | some d, none => some d
       | some d, some l => if d = l then some l else some d) ∧
    (main_tick td last exec).1 = (main_tick td last exec2).1 := by
  cases td with
  | none => simp [main_tick]
  | some d =>
    cases last with
    | none => simp [main_tick]
    | some l =>
      by_cases hdl : d = l
      · subst hdl; simp [main_tick]
      · simp [main_tick, hdl]

/-- C4 counterexample: on a transport whose mode-set command fails, the
actuator issues no duty-set command at all (the single `except` handler
catches the mode-set failure before the duty-set line runs), refuting the
claim that the duty-set command is still attempted. -/
theorem mode_failure_skips_duty_cex :
    modeFailExec IpmiCmd.setManualMode = false ∧
    issuesDuty (set_fan_speed (calculate_fan_speed 12) modeFailExec) = false :=
  ⟨rfl, rfl⟩

/-- C4 amended: in `set_fan_speed` the mode-set command is always issued,
and the duty-set command is issued exactly when the mode-set command
succeeded: a mode-set failure does gate the duty-set command. -/
theorem duty_gated_by_mode (speed : ℚ) (exec : IpmiCmd → Bool) :
    issuesDuty (set_fan_speed speed exec) = exec IpmiCmd.setManualMode ∧
    IpmiCmd.setManualMode ∈ set_fan_speed speed exec := by
  unfold set_fan_speed issuesDuty
  cases h : exec IpmiCmd.setManualMode <;> simp [h]

/-- C5 counterexample: from the initial state (`last_temp_diff` unset),
reads 5, 5, 12 issue actuation commands on two ticks, not one: the first
tick actuates because the stored gradient is unset. -/
theorem five_five_twelve_cex :
    ¬ ((runTicks [some 5, some 5, some 12] none execAll).2.count true = 1) := by
  decide

/-- C5 amended: from the initial state, reads 5, 5, 12 actuate exactly
twice — on the first tick (last gradient unset) and on the tick where the
gradient becomes 12 — for any transport behaviour. -/
theorem five_five_twelve_trace (exec : IpmiCmd → Bool) :
    (runTicks [some 5, some 5, some 12] none exec).2 = [true, false, true] ∧
    (runTicks [some 5, some 5, some 12] none exec).2.count true = 2 := by
  have h55 : ¬ ((5 : ℚ) ≠ 5) := by simp
  have h125 : (12 : ℚ) ≠ 5 := by norm_num
  refine ⟨?_, ?_⟩ <;>
    simp [runTicks, main_tick, h55, h125, set_fan_speed_isEmpty]

/-- C6: when the sensor read fails (for instance because the exhaust label
is absent from the transport output), the tick issues no command and
leaves `last_temp_diff` — the only controller state — unchanged. -/
theorem failed_read_no_effect (lines : List (List Char)) (last : Option ℚ)
    (exec : IpmiCmd → Bool) (h : get_temperature lines = none) :
    main_tick (get_temperature lines) last exec = (last, []) := by
  rw [h, main_tick]

/-- C6 witness: a concrete response missing the exhaust label. -/
theorem failed_read_no_effect_witness :
    get_temperature missingExhaustLines = none ∧
    main_tick (get_temperature missingExhaustLines) (some 3) execAll
      = (some 3, []) :=
  ⟨by decide,
   failed_read_no_effect missingExhaustLines (some 3) execAll (by decide)⟩

/-- C7 counterexample: two conflicting inlet lines (20 then 25) plus an
exhaust line do not make `get_temperature` fail — the last inlet match
wins and the read returns 30 − 25 = 5 — refuting the claim that more than
one conflicting line for a label yields a failure. -/
theorem conflicting_lines_cex :
    inletParse (String.toList "Inlet Temp       | 20 degrees C") = some 20 ∧
    inletParse (String.toList "Inlet Temp       | 25 degrees C") = some 25 ∧
    get_temperature conflictingLines = some 5 := by
  refine ⟨by decide, by decide, ?_⟩
  have h : scanLines conflictingLines none none = (some 25, some 30) := by decide
  unfold get_temperature
  rw [h]
  norm_num

/-- C7 amended: `get_temperature` fails exactly when no inlet-labelled
line parses a value or no exhaust-labelled (non-inlet) line does; when
several lines for the same label parse, the last match encountered in the
line-by-line scan wins; on success the result is the last exhaust value
minus the last inlet value. -/
theorem sensor_last_match (lines : List (List Char)) :
    get_temperature lines =
      (match lastUpd none (lines.filterMap inletParse),
             lastUpd none (lines.filterMap exhaustParse) with
       | some inlet, some exhaust => some (exhaust - inlet)
       | _, _ => none) := by
  unfold get_temperature
  rw [scanLines_eq]
  cases lastUpd none (lines.filterMap inletParse) <;>
    cases lastUpd none (lines.filterMap exhaustParse) <;> rfl

/-- C8: with MIN_RPM = 0 and MAX_RPM = 18000, the percentage the actuator
recomputes from the policy's scaled output — clamped to [0,100] and
truncated — equals the policy's duty-cycle percentage, so the observable
percentages survive the unit round-trip. -/
theorem scaling_round_trip (g : ℚ) :
    ((actuator_percentage (calculate_fan_speed g) : ℤ) : ℚ)
      = speed_percentage g := by
  have key : ∀ p : ℚ, 0 ≤ p → p ≤ 100 →
      actuator_percentage (MIN_RPM + (MAX_RPM - MIN_RPM) * (p / 100))
        = pyInt p := by
    intro p h0 h100
    unfold actuator_percentage
    have harg : (MIN_RPM + (MAX_RPM - MIN_RPM) * (p / 100) - MIN_RPM)
        / (MAX_RPM - MIN_RPM) * 100 = p := by
      rw [show MIN_RPM = (0 : ℚ) from rfl, show MAX_RPM = (18000 : ℚ) from rfl]
      ring
    rw [harg, min_eq_right h100, max_eq_right h0]
  by_cases h1 : g < 10
  · have hp : speed_percentage g = 30 := by simp [speed_percentage, h1]
    simp only [calculate_fan_speed, hp]
    rw [key 30 (by norm_num) (by norm_num)]
    decide
  · by_cases h2 : g ≤ 15
    · have hp : speed_percentage g = 40 := by
        simp [speed_percentage, h1, h2, le_of_not_lt h1]
      simp only [calculate_fan_speed, hp]
      rw [key 40 (by norm_num) (by norm_num)]
      decide
    · have hp : speed_percentage g = 100 := by
        simp [speed_percentage, h1, h2, lt_of_not_le h2]
      simp only [calculate_fan_speed, hp]
      rw [key 100 (by norm_num) (by norm_num)]
      decide

/-- C9: the three range conditions of the policy cover every gradient, so
the defensive final `else` is unreachable: the policy equals its
three-branch form in which the last range test is dropped. -/
theorem defensive_else_unreachable (g : ℚ) :
    (g < 10 ∨ (10 ≤ g ∧ g ≤ 15) ∨ 15 < g) ∧
    speed_percentage g
      = (if g < 10 then 30 else if 10 ≤ g ∧ g ≤ 15 then 40 else 100) := by
  constructor
  · rcases lt_or_le g 10 with h | h
    · exact Or.inl h
    · rcases le_or_lt g 15 with h2 | h2
      · exact Or.inr (Or.inl ⟨h, h2⟩)
      · exact Or.inr (Or.inr h2)
  · by_cases h1 : g < 10
    · simp [speed_percentage, h1]
    · by_cases h2 : g ≤ 15
      · simp [speed_percentage, h1, h2, le_of_not_lt h1]
      · simp [speed_percentage, h1, h2, lt_of_not_le h2]

/-- C10: for every input speed, including negative and above-maximum ones,
the recomputed-clamped-truncated percentage lies in [0,100], so the duty
byte hex-encodes to exactly two digits between 0x00 and 0x64. -/
theorem duty_byte_in_range (speed : ℚ) :
    0 ≤ actuator_percentage speed ∧ actuator_percentage speed ≤ 100 ∧
    (format02x (actuator_percentage speed).toNat).length = 2 := by
  have hc0 : (0 : ℚ)
      ≤ max 0 (min 100 ((speed - MIN_RPM) / (MAX_RPM - MIN_RPM) * 100)) :=
    le_max_left _ _
  have hc100 : max 0 (min 100 ((speed - MIN_RPM) / (MAX_RPM - MIN_RPM) * 100))
      ≤ 100 := max_le (by norm_num) (min_le_left _ _)
  have hfl : actuator_percentage speed
      = ⌊max 0 (min 100 ((speed - MIN_RPM) / (MAX_RPM - MIN_RPM) * 100))⌋ := by
    unfold actuator_percentage
    exact pyInt_eq_floor _ hc0
  have h0 : 0 ≤ actuator_percentage speed := by
    rw [hfl]; exact Int.floor_nonneg.mpr hc0
  have h100 : actuator_percentage speed ≤ 100 := by
    rw [hfl]
    exact_mod_cast (Int.floor_le _).trans hc100
  refine ⟨h0, h100, format02x_len_two _ ?_⟩
  omega

end RX730
